import Mathlib

/-!
Verification of the simulation/control core of the ADesigner water-transport
simulator (src/App.tsx, src/types.ts, and the sibling variant
src/unnamed/part_000).

Numbers are modelled as exact rationals (ℚ).  The JavaScript Math primitives
that are transcendental or nondeterministic (Math.PI, Math.sin, Math.sqrt,
Math.random) are threaded as explicit oracle inputs, so every definition stays
computable; none of the verified claims depend on their values.
-/

namespace ADesigner

/-- Simulation tick DT = 0.1 s (src/App.tsx line 17). -/
def DT : ℚ := 1/10

/-- PIPE_DELAY_SECONDS = 5.0 (src/App.tsx line 18). -/
def PIPE_DELAY_SECONDS : ℚ := 5

/-- JavaScript Math.round on a nonnegative number: round half away from zero,
which for x ≥ 0 is ⌊x + 1/2⌋. -/
def jsRound (x : ℚ) : ℤ := ⌊x + 1/2⌋

/-- BUFFER_SIZE = Math.round(PIPE_DELAY_SECONDS / DT) (src/App.tsx line 19). -/
def BUFFER_SIZE : ℕ := (jsRound (PIPE_DELAY_SECONDS / DT)).toNat

/-- HISTORY_SECONDS = 60 (src/App.tsx line 20). -/
def HISTORY_SECONDS : ℚ := 60

/-- MAX_HISTORY = Math.round(HISTORY_SECONDS / DT) (src/App.tsx line 21). -/
def MAX_HISTORY : ℕ := (jsRound (HISTORY_SECONDS / DT)).toNat

/-- JavaScript Math.sign (on non-NaN input). -/
def jsSign (x : ℚ) : ℚ := if 0 < x then 1 else if x < 0 then -1 else 0

/-- Truncation toward zero, as JavaScript's remainder operator uses. -/
def jsTrunc (q : ℚ) : ℤ := if 0 ≤ q then ⌊q⌋ else ⌈q⌉

/-- JavaScript's % operator on numbers: a - b * trunc(a / b). -/
def jsMod (a b : ℚ) : ℚ := a - b * jsTrunc (a / b)

/-- Oracle for the JS Math primitives that have no exact rational value:
Math.PI and Math.sin (and Math.sqrt, used by the leakage fault). -/
structure MathEnv where
  pi : ℚ
  sin : ℚ → ℚ
  sqrt : ℚ → ℚ

/-- The 11 waveform kinds (src/types.ts lines 72-75). -/
inductive DisturbanceType
  | CONSTANT | STEP | RAMP | SINE | SQUARE
  | TRIANGLE | SAWTOOTH | PULSE | NOISE
  | RANDOM_WALK | BURST
deriving DecidableEq

/-- src/types.ts lines 77-83. -/
structure DisturbanceConfig where
  type : DisturbanceType
  base : ℚ
  amplitude : ℚ
  frequency : ℚ
  active : Bool
deriving DecidableEq

/-- src/types.ts line 24. -/
inductive ControlAlgorithm
  | PID | SMITH | MPC
deriving DecidableEq

/-- src/types.ts line 27. -/
inductive ParadigmType
  | TRADITIONAL | IMPROVED | MODERN
deriving DecidableEq

/-- src/types.ts lines 29-38. -/
structure DesignParadigm where
  type : ParadigmType
  name : String
  description : String
  tankArea : ℚ
  algorithm : ControlAlgorithm
  infrastructureCost : String
  computeCost : String
  resilience : String

/-- src/types.ts lines 61-64. -/
structure FaultConfig where
  active : Bool
  value : ℚ
deriving DecidableEq

/-- src/types.ts lines 66-70. -/
structure FaultState where
  leakage : FaultConfig
  pumpEfficiency : FaultConfig
  sensorDrift : FaultConfig
deriving DecidableEq

/-- Plan status (src/types.ts line 93): pending | active | completed. -/
inductive PlanStatus
  | pending | active | completed
deriving DecidableEq

/-- src/types.ts line 90. -/
inductive PlanActionType
  | CHANGE_DISTURBANCE | CHANGE_SETPOINT
deriving DecidableEq

/-- src/types.ts lines 85-94.  The payload is declared there as
`DisturbanceConfig | number`, but the only producer (addPlan, src/App.tsx
lines 428-438) always stores a full DisturbanceConfig, and the only consumer
(executePlan, src/App.tsx lines 418-426) casts the payload to
DisturbanceConfig in both branches; so the embedding fixes the payload type
to DisturbanceConfig. -/
structure PlanStep where
  id : String
  triggerTime : ℚ
  description : String
  actionType : PlanActionType
  payload : DisturbanceConfig
  status : PlanStatus

/-- getDisturbanceValue (src/App.tsx lines 72-92).  `rand` is the
(Math.random() - 0.5) draw made during this evaluation (used only by the
NOISE and RANDOM_WALK waveforms). -/
def getDisturbanceValue (env : MathEnv) (rand : ℚ) (t : ℚ)
    (config : DisturbanceConfig) : ℚ :=
  let base := config.base
  let amplitude := config.amplitude
  let frequency := config.frequency
  let omega := 2 * env.pi * frequency
  let period := 1 / max (1/1000) frequency
  let localT := jsMod t period
  match config.type with
  | .CONSTANT => base
  | .STEP => if localT < period / 2 then base else base + amplitude
  | .RAMP => base + amplitude * (localT / period)
  | .SINE => base + amplitude * env.sin (omega * t)
  | .SQUARE => base + amplitude * jsSign (env.sin (omega * t))
  | .TRIANGLE => base + amplitude * (2 * |2 * (localT / period) - 1| - 1)
  | .SAWTOOTH => base + amplitude * (2 * (localT / period) - 1)
  | .PULSE => if localT < period * (1/10) then base + amplitude else base
  | .NOISE => base + rand * amplitude
  | .RANDOM_WALK => base + env.sin (t * (1/10)) * amplitude + rand * 5
  | .BURST => if 18 < jsMod t 20 then base + amplitude * 2 else base

/-- The controller-internal mutable refs (src/App.tsx lines 340-343):
smithStateRef = \x7b modelLevel, delayedLevel \x7d, integralRef, lastErrorRef,
mpcStateRef = \x7b lastOut \x7d. -/
structure CtrlState where
  integral : ℚ
  lastError : ℚ
  modelLevel : ℚ
  delayedLevel : ℚ
  lastOut : ℚ
deriving DecidableEq

/-- The PID integral accumulation with anti-windup clamp
(src/App.tsx lines 490-492). -/
def pidIntegralStep (integral error : ℚ) : ℚ :=
  let i := integral + error * DT
  if 500 < |i| then jsSign i * 500 else i

/-- The SMITH branch of runControl (src/App.tsx lines 503-516): returns the
updated internal-model level and the pre-clamp output
Kp * (predError - mismatch) + 50 with Kp = 4 (the declared Ki = 0.8 is never
used by the source). -/
def smithUpdate (tankArea : ℚ) (st : CtrlState) (target level demand : ℚ) :
    ℚ × ℚ :=
  let dModel := ((st.lastOut - demand) * DT) / tankArea
  let modelLevel := st.modelLevel + dModel
  let predError := target - modelLevel
  let mismatch := level - modelLevel
  (modelLevel, 4 * (predError - mismatch) + 50)

/-- The MPC lookahead loop (src/App.tsx lines 520-532): 50 prediction steps;
futureIn is the buffered inflow when available (the `output` fallback of the
source is still 0 at that point); futureDemand is the disturbance forecast.
`randAt t` is the (Math.random() - 0.5) draw of the forecast evaluation made
at future time t. -/
def mpcPredictedLevel (env : MathEnv) (randAt : ℚ → ℚ) (tankArea time : ℚ)
    (demandPattern : DisturbanceConfig) (buffer : List ℚ) (level : ℚ) : ℚ :=
  (List.range 50).foldl
    (fun predictedLevel i =>
      let futureIn := if i < buffer.length then buffer.getD i 0 else 0
      let futureT := time + (i : ℚ) * DT
      let futureDemand := getDisturbanceValue env (randAt futureT) futureT demandPattern
      predictedLevel + ((futureIn - futureDemand) * DT) / tankArea)
    level

/-- The algorithm branch of runControl (src/App.tsx lines 488-537): the
pre-clamp output together with the branch's state update (PID writes the
integral, SMITH writes the model level, MPC writes nothing). -/
def runControlCore (env : MathEnv) (randAt : ℚ → ℚ) (paradigm : DesignParadigm)
    (st : CtrlState) (time : ℚ) (buffer : List ℚ)
    (demandPattern : DisturbanceConfig) (target level demand error : ℚ) :
    ℚ × CtrlState :=
  match paradigm.algorithm with
  | .PID =>
      let integral := pidIntegralStep st.integral error
      let derivative := (error - st.lastError) / DT
      let Kp : ℚ := if 100 < paradigm.tankArea then 5 else 2
      let Ki : ℚ := 1/2
      let Kd : ℚ := 1/10
      (Kp * error + Ki * integral + Kd * derivative + 50,
       { st with integral := integral })
  | .SMITH =>
      let ms := smithUpdate paradigm.tankArea st target level demand
      (ms.2, { st with modelLevel := ms.1 })
  | .MPC =>
      let predictedLevel :=
        mpcPredictedLevel env randAt paradigm.tankArea time demandPattern buffer level
      let futureError := target - predictedLevel
      (st.lastOut + futureError * 2, st)

/-- The pump flow limit under the pump-efficiency fault
(src/App.tsx lines 542-545). -/
def maxFlowOf (faults : FaultState) : ℚ :=
  if faults.pumpEfficiency.active then
    250 * (1 - faults.pumpEfficiency.value / 100)
  else 250

/-- runControl (src/App.tsx lines 484-550): branch output, unconditional
lastError update, clamp to [0, maxFlow], and lastOut := clamped output. -/
def runControl (env : MathEnv) (randAt : ℚ → ℚ) (paradigm : DesignParadigm)
    (faults : FaultState) (time : ℚ) (buffer : List ℚ)
    (demandPattern : DisturbanceConfig) (st : CtrlState)
    (target level demand : ℚ) : ℚ × CtrlState :=
  let error := target - level
  let core := runControlCore env randAt paradigm st time buffer demandPattern
      target level demand error
  let st1 := { core.2 with lastError := error }
  let maxFlow := maxFlowOf faults
  let output := max 0 (min maxFlow core.1)
  (output, { st1 with lastOut := output })

/-- Result of one physics update (src/App.tsx lines 461-481). -/
structure PhysicsResult where
  buffer : List ℚ
  tankLevel : ℚ
  tankInflow : ℚ

/-- updatePhysics (src/App.tsx lines 461-481): shift the pipe buffer head as
the tank inflow (`buffer.shift() || 0`, i.e. 0 on an empty buffer), push the
pump inflow on the tail, subtract demand and (if active) the pressure-driven
leakage (value/10)*sqrt(max 0 level), Euler-integrate and clamp the level at
0. -/
def updatePhysics (env : MathEnv) (tankArea : ℚ) (faults : FaultState)
    (buffer : List ℚ) (tankLevel : ℚ) (pumpInflow demandOutflow : ℚ) :
    PhysicsResult :=
  let tankInflow := buffer.headI
  let buffer := buffer.tail ++ [pumpInflow]
  let netFlow := tankInflow - demandOutflow
  let netFlow :=
    if faults.leakage.active then
      netFlow - (faults.leakage.value / 10) * env.sqrt (max 0 tankLevel)
    else netFlow
  let dLevel := (netFlow * DT) / tankArea
  { buffer := buffer
    tankLevel := max 0 (tankLevel + dLevel)
    tankInflow := tankInflow }

/-- One telemetry record appended to history per tick
(src/App.tsx lines 587-597). -/
structure Telemetry where
  t : ℚ
  level : ℚ
  target : ℚ
  flowIn : ℚ
  flowOut : ℚ
deriving DecidableEq

/-- The whole mutable simulation state owned by the App component: React
state (time, patterns, plans, faults, paradigm, history) plus the refs
(pipe buffer, tank level, controller state). -/
structure SimState where
  time : ℚ
  paradigm : DesignParadigm
  demandPattern : DisturbanceConfig
  setpointPattern : DisturbanceConfig
  plans : List PlanStep
  faults : FaultState
  buffer : List ℚ
  tankLevel : ℚ
  ctrl : CtrlState
  history : List Telemetry

/-- The plan check at the top of the tick (src/App.tsx lines 561-566):
every pending plan with triggerTime ≤ nextT is marked completed and
executePlan applies its payload to the active demand or setpoint pattern
via React setState (later plans in array order overwrite earlier ones).
Returns the updated plan list and the pattern values that the setState
calls install for subsequent renders. -/
def firePlans (nextT : ℚ) (plans : List PlanStep)
    (demandPattern setpointPattern : DisturbanceConfig) :
    List PlanStep × DisturbanceConfig × DisturbanceConfig :=
  plans.foldl
    (fun acc p =>
      let done := acc.1
      let dem := acc.2.1
      let tgt := acc.2.2
      if p.status = PlanStatus.pending ∧ p.triggerTime ≤ nextT then
        (done ++ [{ p with status := PlanStatus.completed }],
         if p.actionType = PlanActionType.CHANGE_DISTURBANCE then p.payload else dem,
         if p.actionType = PlanActionType.CHANGE_DISTURBANCE then tgt else p.payload)
      else (done ++ [p], dem, tgt))
    ([], demandPattern, setpointPattern)

/-- The nondeterministic draws consumed by one tick: the Math.random()-0.5
draws of the demand evaluation, the target evaluation and the sensor noise,
and (for the MPC forecast) a draw per future evaluation time. -/
structure PerTickRand where
  demandRand : ℚ
  targetRand : ℚ
  sensorRand : ℚ
  forecastRand : ℚ → ℚ

/-- One tick of the setInterval callback (src/App.tsx lines 556-600),
returning the new state and the telemetry record appended to history.

Step 1 fires due plans; executePlan applies the payload through React
setState (setActiveDemandPattern / setActiveSetpointPattern), which does not
change the `activeDemandPattern` / `activeSetpointPattern` bindings captured
by the running interval closure — so steps 2-5 of the same callback still
read the pre-fire patterns, and the fired payload is only seen by the next
interval callback (the effect re-runs with the new state).  Step 2 evaluates
demand and target, step 3 senses the level (drift fault plus noise), step 4
runs the controller, step 5 updates physics, step 6 appends telemetry with
the MAX_HISTORY*1.5 retention cutoff. -/
def tickTel (env : MathEnv) (r : PerTickRand) (s : SimState) :
    SimState × Telemetry :=
  let nextT := s.time + DT
  let fired := firePlans nextT s.plans s.demandPattern s.setpointPattern
  let currentDemand := getDisturbanceValue env r.demandRand nextT s.demandPattern
  let currentTarget := getDisturbanceValue env r.targetRand nextT s.setpointPattern
  let sensedLevel := s.tankLevel +
    (if s.faults.sensorDrift.active then s.faults.sensorDrift.value else 0) +
    r.sensorRand * (1/10)
  let ctrlOut := runControl env r.forecastRand s.paradigm s.faults s.time
      s.buffer s.demandPattern s.ctrl currentTarget sensedLevel currentDemand
  let phys := updatePhysics env s.paradigm.tankArea s.faults s.buffer
      s.tankLevel ctrlOut.1 currentDemand
  let tel : Telemetry :=
    { t := nextT, level := phys.tankLevel, target := currentTarget,
      flowIn := ctrlOut.1, flowOut := currentDemand }
  let history := s.history ++ [tel]
  let history :=
    if (MAX_HISTORY : ℚ) * (3/2) < (history.length : ℚ) then
      history.drop (history.length - MAX_HISTORY)
    else history
  ({ s with
      time := nextT
      plans := fired.1
      demandPattern := fired.2.1
      setpointPattern := fired.2.2
      buffer := phys.buffer
      tankLevel := phys.tankLevel
      ctrl := ctrlOut.2
      history := history },
   tel)

/-- The state part of one tick. -/
def tick (env : MathEnv) (r : PerTickRand) (s : SimState) : SimState :=
  (tickTel env r s).1

/-- n ticks with a per-tick stream of random draws. -/
def runN (env : MathEnv) (rs : ℕ → PerTickRand) : ℕ → SimState → SimState
  | 0, s => s
  | n + 1, s => tick env (rs n) (runN env rs n s)

/-- deployParadigm (src/App.tsx lines 450-456): install the paradigm and
reset integralRef and lastErrorRef to 0.  (smithStateRef and mpcStateRef are
not touched by the source.) -/
def deployParadigm (p : DesignParadigm) (s : SimState) : SimState :=
  { s with
      paradigm := p
      ctrl := { s.ctrl with integral := 0, lastError := 0 } }

/-- The reset button handler (src/App.tsx lines 959-961): time := 0, clear
the history, tankLevelRef := 295, zero-fill the pipe buffer in place.
(Plans and controller refs are not touched by the source.) -/
def resetSim (s : SimState) : SimState :=
  { s with
      time := 0
      history := []
      tankLevel := 295
      buffer := List.replicate s.buffer.length 0 }

/-- The proportional Smith law hard-coded by the simplified variant
(src/unnamed/part_000 line 500): `out = 4 * error + 50`. -/
def part000SmithLaw (target level : ℚ) : ℚ := 4 * (target - level) + 50

/-- The PARADIGMS constants (src/App.tsx lines 24-55). -/
def PARADIGM_TRADITIONAL : DesignParadigm :=
  { type := .TRADITIONAL
    name := "传统设计范式"
    description := "以大设施换稳定"
    tankArea := 200
    algorithm := .PID
    infrastructureCost := "$$$$"
    computeCost := "$"
    resilience := "极高 (物理冗余)" }

def PARADIGM_IMPROVED : DesignParadigm :=
  { type := .IMPROVED
    name := "改良设计范式"
    description := "内模控制补偿"
    tankArea := 80
    algorithm := .SMITH
    infrastructureCost := "$$"
    computeCost := "$$"
    resilience := "中 (算法补偿)" }

def PARADIGM_MODERN : DesignParadigm :=
  { type := .MODERN
    name := "现代设计范式"
    description := "以算力换设施"
    tankArea := 15
    algorithm := .MPC
    infrastructureCost := "$"
    computeCost := "$$$$"
    resilience := "低 (依赖算力)" }

/-- All faults inactive (src/App.tsx lines 326-330). -/
def faultsOff : FaultState :=
  { leakage := { active := false, value := 0 }
    pumpEfficiency := { active := false, value := 0 }
    sensorDrift := { active := false, value := 0 } }

/-! Remaining definitions: the delay-line skeleton of the pipe buffer, the
part_000 variant of the buffer, the PID integral iteration, and concrete
states used to evaluate the code on explicit inputs. -/

/-- The buffer component of updatePhysics iterated from a given initial
buffer: each tick drops the head (the value shifted out as tank inflow) and
appends the tick's pump output (src/App.tsx lines 463-465). -/
def fifoAfter (init : List ℚ) (u : ℕ → ℚ) : ℕ → List ℚ
  | 0 => init
  | k + 1 => (fifoAfter init u k).tail ++ [u k]

/-- The pipe buffer after k ticks, starting from the initial
new Array(BUFFER_SIZE).fill(0) (src/App.tsx line 338), with pump output u i
pushed at tick i. -/
def bufAfter (u : ℕ → ℚ) (k : ℕ) : List ℚ :=
  fifoAfter (List.replicate BUFFER_SIZE 0) u k

/-- The tank inflow read during tick k: the head shifted out of the buffer
before that tick's push (src/App.tsx line 464). -/
def inflowAt (u : ℕ → ℚ) (k : ℕ) : ℚ := (bufAfter u k).headI

/-- BUFFER_SIZE = 500 of the variant app (src/unnamed/part_000 line 19). -/
def part000_BUFFER_SIZE : ℕ := 500

/-- The buffer step of the variant tick callback (src/unnamed/part_000
lines 511-513): push the output, then shift once if the length exceeds 500. -/
def part000_bufStep (buf : List ℚ) (out : ℚ) : List ℚ :=
  let buf2 := buf ++ [out]
  if part000_BUFFER_SIZE < buf2.length then buf2.tail else buf2

/-- The variant buffer after k pushes, from the initial 500 zeros
(src/unnamed/part_000 line 353). -/
def part000_bufAfter (u : ℕ → ℚ) : ℕ → List ℚ
  | 0 => List.replicate part000_BUFFER_SIZE 0
  | k + 1 => part000_bufStep (part000_bufAfter u k) (u k)

/-- The delayed-inflow lookup of the variant (src/unnamed/part_000
lines 514-515): idx = Math.floor(delay / DT);
inflow = buf.length >= idx ? buf[buf.length - idx] : 0. -/
def part000_readInflow (delay : ℚ) (buf : List ℚ) : ℚ :=
  let idx := (⌊delay / DT⌋).toNat
  if idx ≤ buf.length then buf.getD (buf.length - idx) 0 else 0

/-- The inflow consumed by tick k of the variant app: the push of u k happens
before the delayed lookup in the same callback, so the lookup reads the
buffer after k+1 pushes, with the default pipe delay of 5.0 s
(src/unnamed/part_000 lines 324 and 510-515). -/
def part000_inflowAt (u : ℕ → ℚ) (k : ℕ) : ℚ :=
  part000_readInflow 5 (part000_bufAfter u (k + 1))

/-- The PID integral accumulator over n ticks of a constant error, starting
from the initial integralRef = 0 (src/App.tsx lines 341 and 490-492). -/
def integralSeq (error : ℚ) : ℕ → ℚ
  | 0 => 0
  | n + 1 => pidIntegralStep (integralSeq error n) error

/-- A zero instantiation of the Math oracles, usable whenever the evaluated
waveforms are deterministic. -/
def envZero : MathEnv := { pi := 0, sin := fun _ => 0, sqrt := fun _ => 0 }

/-- Zero random draws for one tick. -/
def randZero : PerTickRand :=
  { demandRand := 0, targetRand := 0, sensorRand := 0, forecastRand := fun _ => 0 }

/-- A CONSTANT waveform at a given base. -/
def constCfg (b : ℚ) : DisturbanceConfig :=
  { type := .CONSTANT, base := b, amplitude := 0, frequency := 0, active := true }

/-- The STEP(base=50, amplitude=100, frequency=0.1) configuration; it is also
the initial active demand pattern (src/App.tsx lines 304-306). -/
def stepCfg : DisturbanceConfig :=
  { type := .STEP, base := 50, amplitude := 100, frequency := 1/10, active := true }

/-- A pending plan due at t = 0 switching the demand pattern to CONSTANT 99. -/
def c1Plan : PlanStep :=
  { id := "p1", triggerTime := 0, description := "switch demand pattern",
    actionType := .CHANGE_DISTURBANCE, payload := constCfg 99, status := .pending }

/-- The initial simulation state (src/App.tsx lines 295-343) with the demand
pattern simplified to CONSTANT 50 and the plan c1Plan enqueued. -/
def c1State : SimState :=
  { time := 0
    paradigm := PARADIGM_IMPROVED
    demandPattern := constCfg 50
    setpointPattern := constCfg 295
    plans := [c1Plan]
    faults := faultsOff
    buffer := List.replicate BUFFER_SIZE 0
    tankLevel := 295
    ctrl := { integral := 0, lastError := 0, modelLevel := 295,
              delayedLevel := 295, lastOut := 0 }
    history := [] }

/-- A state with nonzero controller history in every component. -/
def c6State : SimState :=
  { c1State with
      ctrl := { integral := 7, lastError := 3, modelLevel := 123,
                delayedLevel := 295, lastOut := 88 } }

/-- A mid-run state with a pending plan and nonzero controller state. -/
def c7State : SimState :=
  { c1State with
      time := 20
      ctrl := { integral := 42, lastError := 5, modelLevel := 200,
                delayedLevel := 295, lastOut := 77 } }

end ADesigner

set_option maxRecDepth 4096

namespace ADesigner

/-! Helper lemmas. -/

theorem buffer_size_eq : BUFFER_SIZE = 50 := by
  norm_num [BUFFER_SIZE, jsRound, DT, PIPE_DELAY_SECONDS]
  rfl

theorem headI_drop (l : List ℚ) (n : ℕ) : (l.drop n).headI = l.getD n 0 := by
  induction l generalizing n with
  | nil => simp [List.getD]; rfl
  | cons a t ih =>
      cases n with
      | zero => rfl
      | succ n => simpa using ih n

theorem getD_drop (l : List ℚ) (m i : ℕ) :
    (l.drop m).getD i 0 = l.getD (m + i) 0 := by
  induction l generalizing m with
  | nil => simp [List.getD]
  | cons a t ih =>
      cases m with
      | zero => simp
      | succ m => simp [Nat.succ_add, ih m]

theorem getD_append_len (xs ys : List ℚ) (n : ℕ) :
    (xs ++ ys).getD (xs.length + n) 0 = ys.getD n 0 := by
  induction xs with
  | nil => simp
  | cons a t ih => simpa [Nat.succ_add] using ih

theorem getD_map_range (u : ℕ → ℚ) (m n : ℕ) (h : n < m) :
    ((List.range m).map u).getD n 0 = u n := by
  have hlen : n < ((List.range m).map u).length := by simpa using h
  rw [List.getD_eq_getElem _ _ hlen, List.getElem_map, List.getElem_range]

theorem fifoAfter_eq (init : List ℚ) (hinit : 1 ≤ init.length) (u : ℕ → ℚ)
    (k : ℕ) : fifoAfter init u k = (init ++ (List.range k).map u).drop k := by
  induction k with
  | zero => simp [fifoAfter]
  | succ k ih =>
      have h2 : (init ++ (List.range k).map u ++ [u k]).drop (k + 1) =
          (init ++ (List.range k).map u).drop (k + 1) ++ [u k] :=
        List.drop_append_of_le_length
          (by simp only [List.length_append, List.length_map, List.length_range]; omega)
      rw [fifoAfter, ih, List.tail_drop, List.range_succ, List.map_append,
        List.map_cons, List.map_nil, ← List.append_assoc, h2]

theorem fifoAfter_length (init : List ℚ) (hinit : 1 ≤ init.length)
    (u : ℕ → ℚ) (k : ℕ) : (fifoAfter init u k).length = init.length := by
  rw [fifoAfter_eq init hinit u k]
  simp only [List.length_drop, List.length_append, List.length_map,
    List.length_range]
  omega

theorem tail_append_singleton (l : List ℚ) (a : ℚ) (h : l ≠ []) :
    (l ++ [a]).tail = l.tail ++ [a] := by
  cases l with
  | nil => exact absurd rfl h
  | cons x xs => rfl

theorem part000_bufAfter_eq_fifo (u : ℕ → ℚ) (k : ℕ) :
    part000_bufAfter u k = fifoAfter (List.replicate part000_BUFFER_SIZE 0) u k := by
  induction k with
  | zero => rfl
  | succ k ih =>
      have h1 : 1 ≤ (List.replicate part000_BUFFER_SIZE (0:ℚ)).length := by
        rw [List.length_replicate]
        norm_num [part000_BUFFER_SIZE]
      have hlen : (fifoAfter (List.replicate part000_BUFFER_SIZE 0) u k).length
          = part000_BUFFER_SIZE := by
        rw [fifoAfter_length _ h1, List.length_replicate]
      have hne : fifoAfter (List.replicate part000_BUFFER_SIZE 0) u k ≠ [] := by
        intro hc
        rw [hc] at hlen
        norm_num [part000_BUFFER_SIZE] at hlen
      rw [part000_bufAfter, ih, part000_bufStep]
      simp only [List.length_append, hlen, List.length_cons, List.length_nil]
      rw [if_pos (by norm_num)]
      rw [tail_append_singleton _ _ hne]
      rfl

/-- The App.tsx pipe buffer is an exact delay line of BUFFER_SIZE ticks. -/
theorem inflow_pure_delay (u : ℕ → ℚ) (n : ℕ) :
    inflowAt u (n + BUFFER_SIZE) = u n := by
  have hB : 1 ≤ (List.replicate BUFFER_SIZE (0:ℚ)).length := by
    rw [List.length_replicate, buffer_size_eq]
    norm_num
  rw [inflowAt, bufAfter, fifoAfter_eq _ hB, headI_drop]
  have h1 : n + BUFFER_SIZE = (List.replicate BUFFER_SIZE (0:ℚ)).length + n := by
    rw [List.length_replicate, Nat.add_comm]
  rw [h1, getD_append_len, getD_map_range]
  omega

/-- The part_000 pipe buffer is an exact delay line of 49 ticks: the push of
the current output happens before the delayed lookup of the same tick, so the
lookup at offset floor(5.0/DT) = 50 from the tail reaches back only 49 pushes. -/
theorem part000_inflow_delay (u : ℕ → ℚ) (n : ℕ) :
    part000_inflowAt u (n + 49) = u n := by
  have h1 : 1 ≤ (List.replicate part000_BUFFER_SIZE (0:ℚ)).length := by
    rw [List.length_replicate]
    norm_num [part000_BUFFER_SIZE]
  have hlen : (part000_bufAfter u (n + 49 + 1)).length = 500 := by
    rw [part000_bufAfter_eq_fifo, fifoAfter_length _ h1, List.length_replicate]
    norm_num [part000_BUFFER_SIZE]
  have hidx : ((⌊(5:ℚ) / DT⌋).toNat) = 50 := by
    norm_num [DT]
    rfl
  rw [part000_inflowAt, part000_readInflow]
  simp only [hidx, hlen]
  rw [if_pos (by omega)]
  rw [part000_bufAfter_eq_fifo, fifoAfter_eq _ h1, getD_drop]
  have h2 : n + 49 + 1 + (500 - 50) =
      (List.replicate part000_BUFFER_SIZE (0:ℚ)).length + n := by
    simp only [List.length_replicate, part000_BUFFER_SIZE]
    omega
  rw [h2, getD_append_len, getD_map_range]
  omega

/-- Closed form of the PID integral under a constant nonnegative error. -/
theorem integralSeq_eq_min (e : ℚ) (he : 0 ≤ e) (n : ℕ) :
    integralSeq e n = min ((n : ℚ) * (e * DT)) 500 := by
  induction n with
  | zero => simp [integralSeq]
  | succ n ih =>
      have hDT : (0:ℚ) < DT := by norm_num [DT]
      have hed : 0 ≤ e * DT := mul_nonneg he (le_of_lt hDT)
      have hnn : 0 ≤ (n : ℚ) * (e * DT) := by positivity
      rw [integralSeq, ih, pidIntegralStep]
      push_cast
      rcases le_or_lt ((n : ℚ) * (e * DT)) 500 with h | h
      · rw [min_eq_left h]
        set i := (n : ℚ) * (e * DT) + e * DT with hi
        have hnn2 : 0 ≤ i := by positivity
        rcases le_or_lt i 500 with h2 | h2
        · rw [if_neg (by rw [abs_of_nonneg hnn2]; linarith),
            min_eq_left (by linarith [h2])]
          ring
        · rw [if_pos (by rw [abs_of_nonneg hnn2]; linarith),
            min_eq_right (le_of_lt (by linarith))]
          rw [jsSign, if_pos (by linarith)]
          ring
      · rw [min_eq_right (le_of_lt h)]
        set i := (500 : ℚ) + e * DT with hi
        have hnn2 : (0:ℚ) < i := by positivity
        rcases eq_or_lt_of_le hed with h2 | h2
        · rw [if_neg (by rw [abs_of_nonneg (le_of_lt hnn2)]; simp [hi, ← h2])]
          rw [min_eq_right (by nlinarith)]
          simp [hi, ← h2]
        · rw [if_pos (by rw [abs_of_nonneg (le_of_lt hnn2)]; simp [hi]; linarith)]
          rw [jsSign, if_pos hnn2, min_eq_right (by nlinarith)]
          ring

/-- The telemetry demand of a tick is the disturbance value of the pattern the
closure captured at the start of the tick (src/App.tsx lines 569 and 593). -/
theorem tickTel_flowOut (env : MathEnv) (r : PerTickRand) (s : SimState) :
    (tickTel env r s).2.flowOut =
      getDisturbanceValue env r.demandRand (s.time + DT) s.demandPattern := rfl

theorem tickTel_time (env : MathEnv) (r : PerTickRand) (s : SimState) :
    (tickTel env r s).1.time = s.time + DT := rfl

theorem tickTel_plans (env : MathEnv) (r : PerTickRand) (s : SimState) :
    (tickTel env r s).1.plans =
      (firePlans (s.time + DT) s.plans s.demandPattern s.setpointPattern).1 := rfl

theorem tickTel_demandPattern (env : MathEnv) (r : PerTickRand) (s : SimState) :
    (tickTel env r s).1.demandPattern =
      (firePlans (s.time + DT) s.plans s.demandPattern s.setpointPattern).2.1 := rfl

/-- Evaluating the plan check on c1State's single due plan: the plan is
completed and the demand pattern handed to the next render is the payload. -/
theorem c1_fire : firePlans ((0:ℚ) + DT) [c1Plan] (constCfg 50) (constCfg 295) =
    ([{ c1Plan with status := PlanStatus.completed }], constCfg 99, constCfg 295) := by
  simp only [firePlans, List.foldl]
  rw [if_pos]
  · simp [c1Plan]
  · constructor
    · rfl
    · show (0:ℚ) ≤ 0 + DT
      norm_num [DT]

end ADesigner

namespace ADesigner

/-! The claims. -/

/-- C1: the claim says a plan that fires in a tick is already visible in that
same tick's demand/target evaluation.  The code is the other way round: in the
tick that fires c1Plan (payload CONSTANT 99, due at t = 0, old pattern
CONSTANT 50), the telemetry demand is still 50; the plan is marked completed
in the same tick, and only the following tick evaluates the payload (99),
because executePlan's setState does not change the patterns the running
interval closure already captured. -/
theorem c1_plan_effect_not_same_tick :
    (tickTel envZero randZero c1State).2.flowOut = 50 ∧
    ((tickTel envZero randZero c1State).1.plans.map PlanStep.status) =
      [PlanStatus.completed] ∧
    (tickTel envZero randZero (tickTel envZero randZero c1State).1).2.flowOut = 99 ∧
    (50 : ℚ) ≠ 99 := by
  refine ⟨?_, ?_, ?_, by norm_num⟩
  · rw [tickTel_flowOut]
    rfl
  · rw [tickTel_plans]
    show (firePlans ((0:ℚ) + DT) [c1Plan] (constCfg 50) (constCfg 295)).1.map
        PlanStep.status = [PlanStatus.completed]
    rw [c1_fire]
    rfl
  · rw [tickTel_flowOut, tickTel_time, tickTel_demandPattern]
    have h0 : c1State.time = 0 := rfl
    have hp : c1State.plans = [c1Plan] := rfl
    have hd : c1State.demandPattern = constCfg 50 := rfl
    have hs : c1State.setpointPattern = constCfg 295 := rfl
    rw [h0, hp, hd, hs, c1_fire]
    rfl

/-- C2: the tank water level is nonnegative after every physics update — both
for a single updatePhysics call on arbitrary inputs (any buffer, level, flows
and faults) and after every tick of every run, because the Euler step is
clamped with max 0. -/
theorem c2_tank_level_nonneg :
    (∀ (env : MathEnv) (a : ℚ) (f : FaultState) (b : List ℚ) (l p d : ℚ),
      0 ≤ (updatePhysics env a f b l p d).tankLevel) ∧
    (∀ (env : MathEnv) (rs : ℕ → PerTickRand) (s : SimState) (n : ℕ),
      0 ≤ (runN env rs (n + 1) s).tankLevel) := by
  constructor
  · intro env a f b l p d
    exact le_max_left 0 _
  · intro env rs s n
    show 0 ≤ (tick env (rs n) (runN env rs n s)).tankLevel
    exact le_max_left 0 _

/-- C3 counterexample: for the part_000 buffer, with delaySamples =
round(5.0 / 0.1) = 50 and the push sequence u i = i, the inflow read at tick
0 + delaySamples is 1, not u 0 = 0 — the claim's read-back equation fails on
that implementation. -/
theorem c3_part000_not_delay50 :
    (jsRound ((5:ℚ) / DT)).toNat = 50 ∧
    part000_inflowAt (fun i => (i : ℚ)) (0 + 50) = 1 ∧
    ((fun i => (i : ℚ)) 0 : ℚ) ≠ 1 := by
  refine ⟨?_, ?_, by norm_num⟩
  · norm_num [jsRound, DT]
    rfl
  · have h := part000_inflow_delay (fun i => (i : ℚ)) 1
    simpa using h

/-- C3 (amended): the App.tsx updatePhysics buffer is a pure delay line of
exactly delaySamples = BUFFER_SIZE = round(delaySeconds/tick) = 50 ticks (the
inflow of a tick is the buffer head, the push goes to the tail, and the value
pushed at tick n is read back bit-for-bit at tick n + BUFFER_SIZE); the
part_000 variant buffer is also a pure delay line, but of delaySamples - 1 =
49 ticks, because it pushes the current output before the delayed lookup of
the same tick. -/
theorem c3_delay_line_exact :
    (∀ (env : MathEnv) (a : ℚ) (f : FaultState) (b : List ℚ) (l p d : ℚ),
      (updatePhysics env a f b l p d).tankInflow = b.headI ∧
      (updatePhysics env a f b l p d).buffer = b.tail ++ [p]) ∧
    BUFFER_SIZE = 50 ∧
    (∀ (u : ℕ → ℚ) (n : ℕ), inflowAt u (n + BUFFER_SIZE) = u n) ∧
    (∀ (u : ℕ → ℚ) (n : ℕ), part000_inflowAt u (n + 49) = u n) :=
  ⟨fun _ _ _ _ _ _ _ => ⟨rfl, rfl⟩, buffer_size_eq,
    inflow_pure_delay, part000_inflow_delay⟩

/-- C4: PID anti-windup.  For every constant positive error applied from the
initial zero accumulator, the integral never exceeds 500 in absolute value,
and once n * e ≥ 5000 (i.e. n * e * DT ≥ 500) it equals exactly 500. -/
theorem c4_pid_antiwindup (e : ℚ) (he : 0 < e) :
    (∀ n : ℕ, |integralSeq e n| ≤ 500) ∧
    (∀ n : ℕ, (5000 : ℚ) ≤ (n : ℚ) * e → integralSeq e n = 500) := by
  constructor
  · intro n
    rw [integralSeq_eq_min e (le_of_lt he) n]
    have hDT : (0:ℚ) < DT := by norm_num [DT]
    have h1 : 0 ≤ (n : ℚ) * (e * DT) :=
      mul_nonneg (Nat.cast_nonneg n) (mul_nonneg (le_of_lt he) (le_of_lt hDT))
    rw [abs_of_nonneg (le_min h1 (by norm_num))]
    exact min_le_right _ _
  · intro n hn
    rw [integralSeq_eq_min e (le_of_lt he) n, min_eq_right]
    have h500 : (500 : ℚ) = 5000 * DT := by norm_num [DT]
    rw [h500]
    calc (5000 : ℚ) * DT ≤ ((n:ℚ) * e) * DT := by
          apply mul_le_mul_of_nonneg_right hn
          norm_num [DT]
      _ = (n : ℚ) * (e * DT) := by ring

/-- C4 witness: error 10 per tick; the accumulator is within the bound at
tick 7 and sits at exactly 500 at tick 500. -/
theorem c4_pid_antiwindup_witness :
    |integralSeq 10 7| ≤ 500 ∧ integralSeq 10 500 = 500 := by
  have h := c4_pid_antiwindup 10 (by norm_num)
  exact ⟨h.1 7, h.2 500 (by norm_num)⟩

/-- C5: for every tick and every algorithm, the final runControl output lies
in [0, maxFlow] with maxFlow = 250 * (1 - value/100) under an active
pump-efficiency fault and 250 otherwise (provided the fault intensity is at
most 100, as the configuration UI guarantees), and the clamped output is
stored as the new lastOut baseline. -/
theorem c5_output_clamped (env : MathEnv) (randAt : ℚ → ℚ) (p : DesignParadigm)
    (f : FaultState) (time : ℚ) (buf : List ℚ) (pat : DisturbanceConfig)
    (st : CtrlState) (target level demand : ℚ)
    (hv : f.pumpEfficiency.active = true → f.pumpEfficiency.value ≤ 100) :
    0 ≤ (runControl env randAt p f time buf pat st target level demand).1 ∧
    (runControl env randAt p f time buf pat st target level demand).1 ≤ maxFlowOf f ∧
    (runControl env randAt p f time buf pat st target level demand).2.lastOut =
      (runControl env randAt p f time buf pat st target level demand).1 := by
  have hm : 0 ≤ maxFlowOf f := by
    rw [maxFlowOf]
    cases hact : f.pumpEfficiency.active with
    | false => norm_num
    | true =>
        rw [if_pos rfl]
        have h100 : f.pumpEfficiency.value / 100 ≤ 1 :=
          (div_le_one (by norm_num : (0:ℚ) < 100)).mpr (hv hact)
        nlinarith
  refine ⟨?_, ?_, ?_⟩
  · show 0 ≤ max 0 (min (maxFlowOf f)
      (runControlCore env randAt p st time buf pat target level demand
        (target - level)).1)
    exact le_max_left 0 _
  · show max 0 (min (maxFlowOf f)
      (runControlCore env randAt p st time buf pat target level demand
        (target - level)).1) ≤ maxFlowOf f
    exact max_le hm (min_le_left _ _)
  · rfl

/-- C5 witness: the TRADITIONAL paradigm with an active pump-efficiency fault
of intensity 30. -/
theorem c5_output_clamped_witness :
    0 ≤ (runControl envZero (fun _ => 0) PARADIGM_TRADITIONAL
      { faultsOff with pumpEfficiency := { active := true, value := 30 } }
      0 [] (constCfg 50)
      { integral := 0, lastError := 0, modelLevel := 295, delayedLevel := 295,
        lastOut := 0 } 305 295 50).1 ∧
    (runControl envZero (fun _ => 0) PARADIGM_TRADITIONAL
      { faultsOff with pumpEfficiency := { active := true, value := 30 } }
      0 [] (constCfg 50)
      { integral := 0, lastError := 0, modelLevel := 295, delayedLevel := 295,
        lastOut := 0 } 305 295 50).1 ≤ maxFlowOf
        { faultsOff with pumpEfficiency := { active := true, value := 30 } } ∧
    (runControl envZero (fun _ => 0) PARADIGM_TRADITIONAL
      { faultsOff with pumpEfficiency := { active := true, value := 30 } }
      0 [] (constCfg 50)
      { integral := 0, lastError := 0, modelLevel := 295, delayedLevel := 295,
        lastOut := 0 } 305 295 50).2.lastOut =
    (runControl envZero (fun _ => 0) PARADIGM_TRADITIONAL
      { faultsOff with pumpEfficiency := { active := true, value := 30 } }
      0 [] (constCfg 50)
      { integral := 0, lastError := 0, modelLevel := 295, delayedLevel := 295,
        lastOut := 0 } 305 295 50).1 :=
  c5_output_clamped envZero (fun _ => 0) PARADIGM_TRADITIONAL _ 0 [] (constCfg 50)
    _ 305 295 50 (fun _ => by norm_num)

/-- C6 counterexample: deployParadigm leaves the Smith internal-model level
and the last commanded output untouched — on c6State (modelLevel 123,
lastOut 88) a switch to the TRADITIONAL paradigm keeps both, so the
predictor state is not reset as the claim says. -/
theorem c6_predictor_state_survives :
    (deployParadigm PARADIGM_TRADITIONAL c6State).ctrl.modelLevel = 123 ∧
    (deployParadigm PARADIGM_TRADITIONAL c6State).ctrl.lastOut = 88 ∧
    (123 : ℚ) ≠ 0 ∧ (88 : ℚ) ≠ 0 :=
  ⟨rfl, rfl, by norm_num, by norm_num⟩

/-- C6 (amended): deploying a paradigm installs it and resets exactly the
integral accumulator and the last error to 0; the Smith internal-model level,
the delayed model level and the last commanded output survive unchanged. -/
theorem c6_deploy_resets_pid_state_only (p : DesignParadigm) (s : SimState) :
    (deployParadigm p s).paradigm = p ∧
    (deployParadigm p s).ctrl.integral = 0 ∧
    (deployParadigm p s).ctrl.lastError = 0 ∧
    (deployParadigm p s).ctrl.modelLevel = s.ctrl.modelLevel ∧
    (deployParadigm p s).ctrl.delayedLevel = s.ctrl.delayedLevel ∧
    (deployParadigm p s).ctrl.lastOut = s.ctrl.lastOut :=
  ⟨rfl, rfl, rfl, rfl, rfl, rfl⟩

/-- C7 counterexample: the reset control leaves the plan queue and the
controller integral untouched — on c7State (one enqueued plan, integral 42)
both survive the reset, so they are not restored to their defaults as the
claim says. -/
theorem c7_plans_and_integral_survive :
    (resetSim c7State).plans = [c1Plan] ∧ [c1Plan] ≠ ([] : List PlanStep) ∧
    (resetSim c7State).ctrl.integral = 42 ∧ (42 : ℚ) ≠ 0 := by
  refine ⟨rfl, ?_, rfl, by norm_num⟩
  intro h
  exact List.cons_ne_nil _ _ h

/-- C7 (amended): the reset control restores time to 0, clears the telemetry
history, restores the tank level to its initial 295 and zero-fills the delay
buffer at its current length; the plan queue and the whole controller state
(integral, last error, Smith model, last output) are left unchanged. -/
theorem c7_reset_restores_physics_only (s : SimState) :
    (resetSim s).time = 0 ∧
    (resetSim s).history = [] ∧
    (resetSim s).tankLevel = 295 ∧
    (resetSim s).buffer = List.replicate s.buffer.length 0 ∧
    (resetSim s).plans = s.plans ∧
    (resetSim s).ctrl = s.ctrl :=
  ⟨rfl, rfl, rfl, rfl, rfl, rfl⟩

/-- C8: PID numeric scenario.  With the PID algorithm, tankArea 200 (so
Kp = 5), error = target - level = 10, a zero integral value at the point the
output formula uses it, a zero derivative term, and no pump-efficiency fault,
the runControl output is 5*10 + 0 + 0 + 50 = 100, unchanged by the clamp to
[0, 250]. -/
theorem c8_pid_numeric_scenario (env : MathEnv) (randAt : ℚ → ℚ)
    (p : DesignParadigm) (f : FaultState) (time : ℚ) (buf : List ℚ)
    (pat : DisturbanceConfig) (st : CtrlState) (target level demand : ℚ)
    (hA : p.algorithm = ControlAlgorithm.PID)
    (harea : p.tankArea = 200)
    (hpe : f.pumpEfficiency.active = false)
    (ht : target - level = 10)
    (hI : pidIntegralStep st.integral (target - level) = 0)
    (hd : (target - level - st.lastError) / DT = 0) :
    (runControl env randAt p f time buf pat st target level demand).1 = 100 := by
  rw [ht] at hI hd
  simp only [runControl, runControlCore, maxFlowOf, hA, hpe, harea, ht, hI, hd]
  norm_num

/-- C8 witness: TRADITIONAL paradigm (area 200, PID), target 305, level 295,
pre-tick integral -1 (so the accumulated integral used by the formula is
-1 + 10*0.1 = 0) and lastError 10 (zero derivative): output 100. -/
theorem c8_pid_numeric_scenario_witness :
    (runControl envZero (fun _ => 0) PARADIGM_TRADITIONAL faultsOff 0 []
      (constCfg 50)
      { integral := -1, lastError := 10, modelLevel := 295, delayedLevel := 295,
        lastOut := 0 } 305 295 50).1 = 100 := by
  apply c8_pid_numeric_scenario
  · rfl
  · rfl
  · rfl
  · norm_num
  · norm_num [pidIntegralStep, DT, jsSign]
  · norm_num

/-- C9: the STEP(base=50, amplitude=100, frequency=0.1) waveform evaluates to
50 at t = 3 and 150 at t = 7 (period 10 s, threshold period/2 = 5). -/
theorem c9_step_waveform_scenario (env : MathEnv) (rand : ℚ) :
    getDisturbanceValue env rand 3 stepCfg = 50 ∧
    getDisturbanceValue env rand 7 stepCfg = 150 := by
  have hmax : max (1/1000 : ℚ) (1/10) = 1/10 := by norm_num
  constructor <;>
    · simp only [getDisturbanceValue, stepCfg, hmax]
      norm_num [jsMod, jsTrunc]

/-- C10: the SMITH branch's pre-clamp output Kp*(predError - mismatch) + 50
collapses algebraically to the plain proportional law 4*(target - level) + 50
hard-coded by the part_000 variant — for every internal state, tank area and
demand, so the Smith output depends on neither the model level nor the
demand. -/
theorem c10_smith_equals_proportional_law (tankArea : ℚ) (st : CtrlState)
    (target level demand : ℚ) :
    (smithUpdate tankArea st target level demand).2 =
      part000SmithLaw target level := by
  simp only [smithUpdate, part000SmithLaw]
  ring

end ADesigner
